import Mathlib

/-!
Verification development for the x-mcp server core: record normalization,
paginated acquisition with repost filtering, the style analyzer, the
two-tier profile cache, and style blending.

The JavaScript source is embedded shallowly:
- JS objects whose fields may be `undefined` become structures of `Option`
  fields; a returned object that omits a key yields `none` for that key.
- JS numbers are modelled as `ℚ` (with `JSNum` adding the `NaN`/`Infinity`
  values produced by the unguarded divisions of `analyzeWritingStyle`).
- JS truthiness is modelled explicitly: `""` and `0` are falsy, arrays and
  objects are truthy even when empty, `undefined`/`null` are falsy.
- Regex scans are modelled as character-list scanners with the same
  left-to-right, non-overlapping match semantics.
-/

/-- JS `a || b || ... || ""` over string-valued fields: first present,
non-empty value wins, otherwise the empty-string default. -/
def jsOrS : List (Option String) → String
  | [] => ""
  | some s :: rest => if s = "" then jsOrS rest else s
  | none :: rest => jsOrS rest

/-- JS `a || b || ... || 0` over numeric fields: first present, non-zero
value wins, otherwise the 0 default. -/
def jsOrN : List (Option Nat) → Nat
  | [] => 0
  | some n :: rest => if n = 0 then jsOrN rest else n
  | none :: rest => jsOrN rest

/-- JS `a || b || false` over boolean fields: true iff some field is
present and `true`. -/
def jsOrB (l : List (Option Bool)) : Bool :=
  l.any (fun o => o == some true)

/-- JS string `.length` counts UTF-16 code units: astral code points count 2. -/
def jsLength (s : String) : Nat :=
  (s.toList.map (fun c => if c.val.toNat ≥ 0x10000 then 2 else 1)).sum

/-- JS word character, `\w` = `[A-Za-z0-9_]`. -/
def isWordChar (c : Char) : Bool := c.isAlphanum || c == '_'

/-- ASCII upper-case letter, `[A-Z]`. -/
def isUpperAZ (c : Char) : Bool := decide ('A' ≤ c) && decide (c ≤ 'Z')

/-- Count occurrences of a character in a string (JS `text.match(/c/g).length`). -/
def countChar (ch : Char) (s : String) : Nat :=
  s.toList.countP (fun c => c == ch)

/-- Maximal runs of characters NOT satisfying `p`
(JS `text.split(sep).filter(Boolean)` where `sep` matches runs of `p`-chars).
`runsNotAux` carries the reversed current run. -/
def runsNotAux (p : Char → Bool) : List Char → List Char → List (List Char)
  | [], cur => if cur.isEmpty then [] else [cur.reverse]
  | c :: rest, cur =>
    if p c then
      if cur.isEmpty then runsNotAux p rest []
      else cur.reverse :: runsNotAux p rest []
    else runsNotAux p rest (c :: cur)

/-- Maximal runs of characters not satisfying `p`. -/
def runsNot (p : Char → Bool) (l : List Char) : List (List Char) :=
  runsNotAux p l []

/-- Count of maximal `\w+` tokens consisting only of `[A-Z]` with length ≥ n:
the matches of `\b[A-Z]{n,}\b`. -/
def capsTokenCount (n : Nat) (chars : List Char) : Nat :=
  ((runsNot (fun c => !isWordChar c) chars).filter
    (fun w => decide (n ≤ w.length) && w.all isUpperAZ)).length

/-- Non-overlapping matches of `/\.\.\./g`. -/
def countEllipsis : List Char → Nat
  | '.' :: '.' :: '.' :: rest => 1 + countEllipsis rest
  | _ :: rest => countEllipsis rest
  | [] => 0

/-- Number of UTF-16 code units of `c` matched by the emoji regex of
`analyzeWritingStyle` (character classes U+231A..U+FE0F and
U+D83C..U+DBFF, U+DC00..U+DFFF over code units): both surrogate halves of an
astral code point fall inside U+231A..U+FE0F, so astral characters count 2;
BMP characters count 1 when inside U+231A..U+FE0F. -/
def emojiCodeUnits (c : Char) : Nat :=
  if c.val.toNat ≥ 0x10000 then 2
  else if 0x231A ≤ c.val.toNat ∧ c.val.toNat ≤ 0xFE0F then 1 else 0

/-- Scanner for `/m(\w+)/g` where `m` is the marker (`#` or `@`): finds the
marker, takes the maximal following word-char run (of length ≥ 1), returns the
runs without the marker (JS `substring(1)`). The state is `some acc` when a
marker has been consumed and `acc` is the reversed word collected so far. -/
def scanTagsAux (marker : Char) : List Char → Option (List Char) → List String
  | [], st =>
    (match st with
     | some acc => if acc.isEmpty then [] else [String.mk acc.reverse]
     | none => [])
  | c :: rest, st =>
    match st with
    | some acc =>
      if isWordChar c then scanTagsAux marker rest (some (c :: acc))
      else
        (if acc.isEmpty then [] else [String.mk acc.reverse])
          ++ scanTagsAux marker rest (if c == marker then some [] else none)
    | none =>
      if c == marker then scanTagsAux marker rest (some [])
      else scanTagsAux marker rest none

/-- Matches of `/m(\w+)/g` over a character list, marker stripped. -/
def scanTags (marker : Char) (chars : List Char) : List String :=
  scanTagsAux marker chars none

/-- `needle.isPrefixOf` at some position of the haystack: JS `hay.includes(needle)`. -/
def charsContain (needle : List Char) : List Char → Bool
  | [] => needle.isEmpty
  | c :: rest => needle.isPrefixOf (c :: rest) || charsContain needle rest

/-- JS `hay.includes(needle)`. -/
def containsSub (needle hay : String) : Bool :=
  charsContain needle.toList hay.toList

/-- JS `Math.round` / the rounding used by `toFixed`: round half toward +∞. -/
def jsRound (q : ℚ) : ℤ := ⌊q + 1 / 2⌋

/-- `parseFloat(x.toFixed(k))`: decimal rounding to `k` places. -/
def toFixed (k : Nat) (q : ℚ) : ℚ :=
  (jsRound (q * 10 ^ k) : ℚ) / 10 ^ k

/-- JS number values reachable in this code: finite, `Infinity` (from `a/0`
with `a ≠ 0`) and `NaN` (from `0/0`). -/
inductive JSNum where
  | num (q : ℚ)
  | posInf
  | nan
deriving DecidableEq, Inhabited

/-- JS division of two non-negative integers, with the JS zero-divisor
behaviour: `0/0 = NaN`, `a/0 = Infinity` for `a ≠ 0`. -/
def jsDivNat (a b : Nat) : JSNum :=
  if b = 0 then (if a = 0 then JSNum.nan else JSNum.posInf)
  else JSNum.num ((a : ℚ) / (b : ℚ))

/-- `parseFloat(x.toFixed(k))` lifted to `JSNum`: `NaN.toFixed` is "NaN" and
`Infinity.toFixed` is "Infinity", which parse back to themselves. -/
def jsFixed (k : Nat) : JSNum → JSNum
  | JSNum.num q => JSNum.num (toFixed k q)
  | x => x

/-- JS `x > q` where `x` may be `NaN` (always false) or `Infinity` (true). -/
def JSNum.gtQ (x : JSNum) (q : ℚ) : Bool :=
  match x with
  | JSNum.num a => decide (q < a)
  | JSNum.posInf => true
  | JSNum.nan => false

/-- The structured `entities` sub-object of a raw tweet. Entity items are
modelled by their resolved text (the source maps `h.text || h`,
`m.screen_name || m.username || m`, `u.expanded_url || u.url || u`); an absent
entity array is modelled as the empty list (both are falsy for the
`?.length` probes). -/
structure Entities where
  hashtags : List String
  user_mentions : List String
  urls : List String
deriving DecidableEq, Inhabited

/-- A raw upstream post: every known alternate field name, each possibly
absent (`undefined`). -/
structure RawPost where
  id : Option String
  tweet_id : Option String
  text : Option String
  tweet_text : Option String
  content : Option String
  likeCount : Option Nat
  like_count : Option Nat
  favorites : Option Nat
  retweetCount : Option Nat
  retweet_count : Option Nat
  replyCount : Option Nat
  reply_count : Option Nat
  quoteCount : Option Nat
  quote_count : Option Nat
  createdAt : Option String
  created_at : Option String
  isReply : Option Bool
  is_reply : Option Bool
  isRetweet : Option Bool
  retweeted : Option Bool
  lang : Option String
  language : Option String
  entities : Option Entities
deriving DecidableEq, Inhabited

/-- `extractHashtags`/`extractMentions` fallback: regex extraction from
`text` guarded by JS truthiness of the text. -/
def taggedFromText (marker : Char) (text : Option String) : List String :=
  match text with
  | some s => if s != "" then scanTags marker s.toList else []
  | none => []

/-- `extractHashtags(tweet)`: structured entities first, otherwise `#(\w+)`
matches of the text, tag stored without `#`. -/
def extractHashtags (tweet : RawPost) : List String :=
  match tweet.entities with
  | some e => if !e.hashtags.isEmpty then e.hashtags else taggedFromText '#' tweet.text
  | none => taggedFromText '#' tweet.text

/-- `extractMentions(tweet)`: structured entities first, otherwise `@(\w+)`
matches of the text, stored without `@`. -/
def extractMentions (tweet : RawPost) : List String :=
  match tweet.entities with
  | some e => if !e.user_mentions.isEmpty then e.user_mentions else taggedFromText '@' tweet.text
  | none => taggedFromText '@' tweet.text

/-- `extractUrls(tweet)`: structured entities only, no regex fallback. -/
def extractUrls (tweet : RawPost) : List String :=
  match tweet.entities with
  | some e => if !e.urls.isEmpty then e.urls else []
  | none => []

/-- The object returned by `normalizeTweetData`. The null branch of the
source returns only the first six keys, so the remaining six are `Option`s:
`none` models a key absent (`undefined`) in the returned JS object. -/
structure NormalizedPost where
  id : String
  text : String
  like_count : Nat
  retweet_count : Nat
  reply_count : Nat
  quote_count : Nat
  created_at : Option String
  is_reply : Option Bool
  hashtags : Option (List String)
  mentions : Option (List String)
  urls : Option (List String)
  language : Option String
deriving DecidableEq, Inhabited

/-- `normalizeTweetData(tweet)`: null branch with six fields; the
`likeCount !== undefined` branch with single-key accessors; the generic
branch with first-match-wins alternate keys. -/
def normalizeTweetData : Option RawPost → NormalizedPost
  | none =>
    { id := "", text := "", like_count := 0, retweet_count := 0,
      reply_count := 0, quote_count := 0,
      created_at := none, is_reply := none, hashtags := none,
      mentions := none, urls := none, language := none }
  | some tweet =>
    match tweet.likeCount with
    | some _ =>
      { id := jsOrS [tweet.id]
        text := jsOrS [tweet.text]
        like_count := jsOrN [tweet.likeCount]
        retweet_count := jsOrN [tweet.retweetCount]
        reply_count := jsOrN [tweet.replyCount]
        quote_count := jsOrN [tweet.quoteCount]
        created_at := some (jsOrS [tweet.createdAt])
        is_reply := some (jsOrB [tweet.isReply])
        hashtags := some (extractHashtags tweet)
        mentions := some (extractMentions tweet)
        urls := some (extractUrls tweet)
        language := some (jsOrS [tweet.lang]) }
    | none =>
      { id := jsOrS [tweet.id, tweet.tweet_id]
        text := jsOrS [tweet.text, tweet.tweet_text, tweet.content]
        like_count := jsOrN [tweet.likeCount, tweet.like_count, tweet.favorites]
        retweet_count := jsOrN [tweet.retweetCount, tweet.retweet_count]
        reply_count := jsOrN [tweet.replyCount, tweet.reply_count]
        quote_count := jsOrN [tweet.quoteCount, tweet.quote_count]
        created_at := some (jsOrS [tweet.createdAt, tweet.created_at])
        is_reply := some (jsOrB [tweet.isReply, tweet.is_reply])
        hashtags := some (extractHashtags tweet)
        mentions := some (extractMentions tweet)
        urls := some (extractUrls tweet)
        language := some (jsOrS [tweet.lang, tweet.language]) }

/-- The `data` sub-object of an upstream page response. -/
structure RespData where
  tweets : Option (List RawPost)
  next_cursor : Option String
deriving DecidableEq, Inhabited

/-- An upstream page response: `tweets`/`next_cursor` either top-level or
nested under `data`. -/
structure ApiResponse where
  status : String
  data : Option RespData
  tweets : Option (List RawPost)
  next_cursor : Option String
deriving DecidableEq, Inhabited

/-- JS `s.startsWith(pre)`. -/
def jsStartsWith (s pre : String) : Bool :=
  pre.toList.isPrefixOf s.toList

/-- The repost test of `getUserTweets`: text begins with "RT @"
or an explicit repost flag is strictly `true`. -/
def isRepost (t : RawPost) : Bool :=
  (match t.text with
   | some s => jsStartsWith s "RT @"
   | none => false)
  || t.isRetweet == some true || t.retweeted == some true

/-- Page extraction of `getUserTweets`:
`response.data && response.data.tweets` first, then `response.tweets`, else
stop (`none`). Empty arrays are truthy and are returned. -/
def pageTweetsOf (r : ApiResponse) : Option (List RawPost) :=
  match r.data with
  | some d =>
    (match d.tweets with
     | some ts => some ts
     | none => r.tweets)
  | none => r.tweets

/-- Top-level cursor probe: `response.next_cursor` truthy (present and
non-empty) yields the continuation cursor, else pagination stops. -/
def topCursorOf (r : ApiResponse) : Option String :=
  match r.next_cursor with
  | some c => if c != "" then some c else none
  | none => none

/-- Cursor update of `getUserTweets`: `response.data.next_cursor` when data
is present and that cursor is truthy, else the top-level cursor; `none` means
`hasMore = false`. -/
def nextCursorOf (r : ApiResponse) : Option String :=
  match r.data with
  | some d =>
    (match d.next_cursor with
     | some c => if c != "" then some c else topCursorOf r
     | none => topCursorOf r)
  | none => topCursorOf r

/-- `MAX_REQUESTS` of `getUserTweets`. -/
def MAX_REQUESTS : Nat := 5

/-- The pagination loop of `getUserTweets`. The upstream source is opaque:
`src reqCount cursor` is the response to the request numbered `reqCount`
carrying `cursor`. `remaining` counts loop iterations still allowed by
`requestCount < MAX_REQUESTS`; the loop also exits when the accumulated
count reaches `targetCount`, on a non-success status, on a missing tweets
array, on an absent/empty next cursor, or on an empty page. Returns the
accumulated (filtered) posts and the number of requests issued. -/
def fetchLoop (src : Nat → String → ApiResponse) (targetCount : Nat) :
    Nat → String → List RawPost → Nat → List RawPost × Nat
  | 0, _, acc, reqCount => (acc, reqCount)
  | remaining + 1, cursor, acc, reqCount =>
    if targetCount ≤ acc.length then (acc, reqCount)
    else
      let response := src reqCount cursor
      if response.status != "success" then (acc, reqCount + 1)
      else
        match pageTweetsOf response with
        | none => (acc, reqCount + 1)
        | some pageTweets =>
          let acc2 := acc ++ pageTweets.filter (fun t => !isRepost t)
          match nextCursorOf response with
          | none => (acc2, reqCount + 1)
          | some c =>
            if pageTweets.isEmpty then (acc2, reqCount + 1)
            else fetchLoop src targetCount remaining c acc2 (reqCount + 1)

/-- `getUserTweets(username, targetCount)` (paginated revision): run the
loop from an empty cursor and truncate overshoot to `targetCount`. -/
def getUserTweets (src : Nat → String → ApiResponse) (targetCount : Nat) :
    List RawPost :=
  (fetchLoop src targetCount MAX_REQUESTS "" [] 0).1.take targetCount

/-- Number of upstream requests issued by `getUserTweets`. -/
def getUserTweetsRequestCount (src : Nat → String → ApiResponse)
    (targetCount : Nat) : Nat :=
  (fetchLoop src targetCount MAX_REQUESTS "" [] 0).2

/-- The `metrics` block of a style profile. -/
structure Metrics where
  tweet_count : Nat
  avg_length : ℚ
  hashtag_usage : ℚ
  mention_usage : ℚ
  exclamation_frequency : ℚ
  question_frequency : ℚ
deriving DecidableEq, Inhabited

/-- The `style_assessment` block: categorical labels. -/
structure StyleAssessment where
  formality : String
  hashtag_frequency : String
  engagement : String
  tone : String
  capitalization : String
deriving DecidableEq, Inhabited

/-- Punctuation counts over the joined corpus. -/
structure PunctuationPatterns where
  exclamation : Nat
  question : Nat
  ellipsis : Nat
  all_caps : Nat
deriving DecidableEq, Inhabited

/-- The `writing_style` block of the style signature. The three ratio
fields are `JSNum` because their divisors can be zero. -/
structure WritingStyle where
  avg_sentence_length : JSNum
  emoji_usage : JSNum
  punctuation_patterns : PunctuationPatterns
  capitalization_style : String
  word_richness : JSNum
deriving DecidableEq, Inhabited

/-- The `style_signature` block. -/
structure StyleSignature where
  writing_style : WritingStyle
  content_focus : List String
  signature_traits : List String
  personality_type : String
deriving DecidableEq, Inhabited

/-- A full style profile, as returned by `analyzeTweets` on non-empty input. -/
structure StyleProfile where
  metrics : Metrics
  style_assessment : StyleAssessment
  style_signature : StyleSignature
  example_tweets : List String
  analyzed_at : String
deriving DecidableEq, Inhabited

/-- `analyzeTweets` result: either the error object
`{ error: "No tweets available for analysis" }` or a profile. -/
inductive AnalysisResult where
  | err (msg : String)
  | ok (p : StyleProfile)
deriving DecidableEq, Inhabited

/-- `analyzeWritingStyle(tweetTexts)`: corpus joined with spaces, sentences
split on `[.!?]+`, words split on `\s+`, unique case-folded words, emoji
code-unit matches, punctuation counts, `\b[A-Z]{3,}\b` tokens. -/
def analyzeWritingStyle (tweetTexts : List String) : WritingStyle :=
  let allText := String.intercalate " " tweetTexts
  let chars := allText.toList
  let sentences := runsNot (fun c => c == '.' || c == '!' || c == '?') chars
  let words := runsNot (fun c => c.isWhitespace) chars
  let uniqueWords := (words.map (fun w => w.map Char.toLower)).dedup
  let emojis := (chars.map emojiCodeUnits).sum
  let exclamations := chars.countP (fun c => c == '!')
  let questions := chars.countP (fun c => c == '?')
  let ellipses := countEllipsis chars
  let allCaps := capsTokenCount 3 chars
  { avg_sentence_length := jsFixed 1 (jsDivNat words.length sentences.length)
    emoji_usage := jsFixed 2 (jsDivNat emojis tweetTexts.length)
    punctuation_patterns :=
      { exclamation := exclamations, question := questions,
        ellipsis := ellipses, all_caps := allCaps }
    capitalization_style :=
      if (tweetTexts.length : ℚ) * 0.2 < (allCaps : ℚ) then "emphatic" else "normal"
    word_richness := jsFixed 2 (jsDivNat uniqueWords.length words.length) }

/-- The fixed theme → keyword table of `extractContentThemes`. -/
def keywordMap : List (String × List String) :=
  [("ai", ["ai", "artificial intelligence", "gpt", "openai", "llm", "chatgpt"]),
   ("crypto", ["bitcoin", "ethereum", "crypto", "web3", "nft", "blockchain"]),
   ("politics", ["biden", "trump", "senate", "law", "policy", "government"]),
   ("tech", ["tesla", "apple", "nasa", "startup", "tech", "software", "hardware"]),
   ("space", ["spacex", "mars", "rocket", "nasa", "elon"]),
   ("humor", ["😂", "🤣", "lol", "funny", "joke", "meme"]),
   ("finance", ["stock", "market", "investment", "money", "nasdaq", "trading"]),
   ("climate", ["climate", "green", "energy", "emissions", "carbon"]),
   ("motivation", ["grind", "hustle", "mindset", "discipline", "success"]),
   ("war", ["ukraine", "russia", "war", "nato", "army", "military"]),
   ("freedom", ["freedom", "liberty", "rights", "speech", "censorship"]),
   ("philosophy", ["truth", "reality", "meaning", "existential", "logic"]),
   ("memes", ["meme", "shitpost", "cringe", "viral", "trend"])]

/-- `extractContentThemes(tweetTexts)`: a theme is included when any of its
keywords occurs as a substring of the lower-cased joined corpus. -/
def extractContentThemes (tweetTexts : List String) : List String :=
  let allText := (String.intercalate " " tweetTexts).toLower
  (keywordMap.filter (fun kv => kv.2.any (fun kw => containsSub kw allText))).map
    (fun kv => kv.1)

/-- `detectSignatureTraits(metrics, writingStyle, contentThemes)`. -/
def detectSignatureTraits (metrics : Metrics) (writingStyle : WritingStyle)
    (contentThemes : List String) : List String :=
  (if metrics.avg_length < 50 then ["minimalist"] else [])
    ++ (if (0.2 : ℚ) < metrics.exclamation_frequency then ["emphatic"] else [])
    ++ (if writingStyle.emoji_usage.gtQ 0.1 then ["expressive"] else [])
    ++ (if contentThemes.contains "humor" || contentThemes.contains "memes" then
          ["humorous"] else [])
    ++ (if (0.6 : ℚ) < metrics.mention_usage then ["connector"] else [])

/-- `inferPersonalityType(traits)`: first matching rule in priority order. -/
def inferPersonalityType (traits : List String) : String :=
  if traits.contains "minimalist" && traits.contains "emphatic" then "the provocateur"
  else if traits.contains "connector" && traits.contains "expressive" then "the influencer"
  else if traits.contains "humorous" then "the memer"
  else if traits.contains "expressive" && !traits.contains "minimalist" then "the poet"
  else "the poster"

/-- The dedup/bucket filler of `extractRepresentativeTweets`: add each text
not yet selected and non-empty, breaking when the selection reaches `count`
(checked after each potential add, as in the source loop). -/
def addFrom (count : Nat) (set : List String) : List NormalizedPost → List String
  | [] => set
  | t :: rest =>
    let set2 := if !set.contains t.text && t.text != "" then set ++ [t.text] else set
    if count ≤ set2.length then set2 else addFrom count set2 rest

/-- `extractRepresentativeTweets(normalizedTweets, count)`: four priority
buckets (short, long, emoji-bearing, question/exclamation) then everything,
deduplicated in insertion order, truncated to `count`. -/
def extractRepresentativeTweets (normalizedTweets : List NormalizedPost)
    (count : Nat) : List String :=
  let short := normalizedTweets.filter (fun t => jsLength t.text < 40)
  let long := normalizedTweets.filter (fun t => 120 < jsLength t.text)
  let emoji := normalizedTweets.filter
    (fun t => t.text.toList.any
      (fun c => decide (0x1F300 ≤ c.val.toNat) && decide (c.val.toNat ≤ 0x1F6FF)))
  let questions := normalizedTweets.filter
    (fun t => containsSub "?" t.text || containsSub "!" t.text)
  let s1 := addFrom count [] short
  let s2 := addFrom count s1 long
  let s3 := addFrom count s2 emoji
  let s4 := addFrom count s3 questions
  let s5 := addFrom count s4 normalizedTweets
  s5.take count

/-- `tweets.map(normalizeTweetData)` inside `analyzeTweets`; the input list
may contain null entries. -/
def normalizedOf (tweets : List (Option RawPost)) : List NormalizedPost :=
  tweets.map normalizeTweetData

/-- `tweetTexts` inside `analyzeTweets`: the texts of the normalized posts
whose text is truthy (non-empty). -/
def corpusTexts (tweets : List (Option RawPost)) : List String :=
  ((normalizedOf tweets).filter (fun t => t.text != "")).map (fun t => t.text)

/-- `avgLength` inside `analyzeTweets`: mean character length over the
non-empty texts, 0 when there are none. -/
def avgLengthOf (tweets : List (Option RawPost)) : ℚ :=
  let tweetTexts := corpusTexts tweets
  if 0 < tweetTexts.length then
    (((tweetTexts.map jsLength).sum : ℚ)) / (tweetTexts.length : ℚ)
  else 0

/-- `hashtagCount` inside `analyzeTweets`. -/
def hashtagCountOf (tweets : List (Option RawPost)) : Nat :=
  ((normalizedOf tweets).map (fun t => (t.hashtags.getD []).length)).sum

/-- `mentionCount` inside `analyzeTweets`. -/
def mentionCountOf (tweets : List (Option RawPost)) : Nat :=
  ((normalizedOf tweets).map (fun t => (t.mentions.getD []).length)).sum

/-- `exclamationCount` inside `analyzeTweets`: total `!` over the non-empty
texts. -/
def exclamationCountOf (tweets : List (Option RawPost)) : Nat :=
  ((corpusTexts tweets).map (countChar '!')).sum

/-- `questionCount` inside `analyzeTweets`: total `?` over the non-empty
texts. -/
def questionCountOf (tweets : List (Option RawPost)) : Nat :=
  ((corpusTexts tweets).map (countChar '?')).sum

/-- `allCapsWords` inside `analyzeTweets`: total `\b[A-Z]{2,}\b` matches. -/
def allCapsWordsOf (tweets : List (Option RawPost)) : Nat :=
  ((corpusTexts tweets).map (fun s => capsTokenCount 2 s.toList)).sum

/-- The `metrics` object built by `analyzeTweets`. -/
def metricsOf (tweets : List (Option RawPost)) : Metrics :=
  { tweet_count := (normalizedOf tweets).length
    avg_length := toFixed 1 (avgLengthOf tweets)
    hashtag_usage :=
      toFixed 2 ((hashtagCountOf tweets : ℚ) / ((normalizedOf tweets).length : ℚ))
    mention_usage :=
      toFixed 2 ((mentionCountOf tweets : ℚ) / ((normalizedOf tweets).length : ℚ))
    exclamation_frequency :=
      toFixed 2 ((exclamationCountOf tweets : ℚ) / ((normalizedOf tweets).length : ℚ))
    question_frequency :=
      toFixed 2 ((questionCountOf tweets : ℚ) / ((normalizedOf tweets).length : ℚ)) }

/-- The `style_assessment` object built by `analyzeTweets`. -/
def styleAssessmentOf (tweets : List (Option RawPost)) : StyleAssessment :=
  { formality := if 120 < avgLengthOf tweets then "formal" else "casual"
    hashtag_frequency := if 1 < (metricsOf tweets).hashtag_usage then "high" else "low"
    engagement := if (0.5 : ℚ) < (metricsOf tweets).mention_usage then "high" else "low"
    tone :=
      if questionCountOf tweets < exclamationCountOf tweets then
        if ((normalizedOf tweets).length : ℚ) * 0.3 < (exclamationCountOf tweets : ℚ) then
          "emphatic"
        else "assertive"
      else if ((normalizedOf tweets).length : ℚ) * 0.3 < (questionCountOf tweets : ℚ) then
        "inquisitive"
      else "neutral"
    capitalization :=
      if ((normalizedOf tweets).length : ℚ) * 0.2 < (allCapsWordsOf tweets : ℚ) then
        "emphatic"
      else "normal" }

/-- The `style_signature` object built by `analyzeTweets`. -/
def styleSignatureOf (tweets : List (Option RawPost)) : StyleSignature :=
  { writing_style := analyzeWritingStyle (corpusTexts tweets)
    content_focus := extractContentThemes (corpusTexts tweets)
    signature_traits :=
      detectSignatureTraits (metricsOf tweets) (analyzeWritingStyle (corpusTexts tweets))
        (extractContentThemes (corpusTexts tweets))
    personality_type :=
      inferPersonalityType
        (detectSignatureTraits (metricsOf tweets)
          (analyzeWritingStyle (corpusTexts tweets))
          (extractContentThemes (corpusTexts tweets))) }

/-- `analyzeTweets(tweets)`: the error object on an empty (or absent) input
array, else the full profile. `now` is the wall-clock ISO timestamp taken by
`new Date().toISOString()` at invocation. -/
def analyzeTweets (tweets : List (Option RawPost)) (now : String) : AnalysisResult :=
  if tweets.isEmpty then AnalysisResult.err "No tweets available for analysis"
  else
    AnalysisResult.ok
      { metrics := metricsOf tweets
        style_assessment := styleAssessmentOf tweets
        style_signature := styleSignatureOf tweets
        example_tweets := extractRepresentativeTweets (normalizedOf tweets) 10
        analyzed_at := now }

/-- The stored payload `profile_data`; only the presence of its `tweets`
sub-field matters to the structural check, the list holds the simplified
texts. -/
structure ProfilePayload where
  tweets : Option (List String)
deriving DecidableEq, Inhabited

/-- A cache record as stored in either tier: creation time in Unix
milliseconds, the payload, and the legacy top-level `tweets` field probed by
`generate_tweet`'s fallback. -/
structure CacheRecord where
  created_at : ℚ
  profile_data : Option ProfilePayload
  tweets : Option (List String)
deriving DecidableEq, Inhabited

/-- Freshness classification result of `getCachedProfile`. -/
inductive CacheStatus where
  | fresh
  | stale
  | invalid
deriving DecidableEq, Inhabited

/-- The cache world visible to one `getCachedProfile` call: the in-process
map entry for the handle, the most recent durable row for the handle, and
whether the durable store is configured. -/
structure CacheState where
  memory : Option CacheRecord
  dbLatest : Option CacheRecord
  useDatabase : Bool
deriving DecidableEq, Inhabited

/-- `CACHE_EXPIRY_HOURS`. -/
def CACHE_EXPIRY_HOURS : ℚ := 24

/-- `ageHours`: `(now - profileDate) / (1000 * 60 * 60)` over millisecond
timestamps. -/
def ageHours (nowMs createdMs : ℚ) : ℚ :=
  (nowMs - createdMs) / (1000 * 60 * 60)

/-- The structural check of `getCachedProfile`:
`!profile.profile_data || !profile.profile_data.tweets`. -/
def invalidPayload (profile : CacheRecord) : Bool :=
  match profile.profile_data with
  | none => true
  | some pd => pd.tweets.isNone

/-- The durable-tier lookup of `getCachedProfile`: newest row for the
handle, structural validation, then TTL classification (fresh rows are also
promoted to the in-process map, not modelled here). -/
def dbLookup (st : CacheState) (nowMs : ℚ) : Option (CacheStatus × CacheRecord) :=
  if st.useDatabase then
    match st.dbLatest with
    | none => none
    | some profile =>
      if invalidPayload profile then some (CacheStatus.invalid, profile)
      else if CACHE_EXPIRY_HOURS < ageHours nowMs profile.created_at then
        some (CacheStatus.stale, profile)
      else some (CacheStatus.fresh, profile)
  else none

/-- `getCachedProfile(username)`: in-process map first (served as fresh only
within the TTL; an expired in-process entry falls through to the durable
tier), then the durable tier. -/
def getCachedProfile (st : CacheState) (nowMs : ℚ) :
    Option (CacheStatus × CacheRecord) :=
  match st.memory with
  | some cachedData =>
    if ageHours nowMs cachedData.created_at ≤ CACHE_EXPIRY_HOURS then
      some (CacheStatus.fresh, cachedData)
    else dbLookup st nowMs
  | none => dbLookup st nowMs

/-- The cache-vs-fetch decision of the `analyze_twitter_profile` tool:
fetch unless `force_refresh` is false and the cache lookup returned a fresh
entry. -/
def analyzeProfileFetches (force_refresh : Bool)
    (cached : Option (CacheStatus × CacheRecord)) : Bool :=
  force_refresh ||
    !(match cached with
      | some (CacheStatus.fresh, _) => true
      | _ => false)

/-- The cache-vs-fetch decision of the `generate_tweet` tool for one
username: fetch on miss, stale or invalid; on a fresh hit, fetch anyway when
neither `profile_data.tweets` nor the top-level `tweets` is present. -/
def generateTweetFetches (cached : Option (CacheStatus × CacheRecord)) : Bool :=
  match cached with
  | none => true
  | some (st, profile) =>
    if st == CacheStatus.stale || st == CacheStatus.invalid then true
    else
      match profile.profile_data with
      | some pd =>
        (match pd.tweets with
         | some _ => false
         | none => (match profile.tweets with | some _ => false | none => true))
      | none => (match profile.tweets with | some _ => false | none => true)

/-- The three blended numeric targets computed by `buildMixedStyleGuidance`:
`avgLength`, `avgHashtags` (clamped below by 1), `avgMentions`. -/
structure BlendTargets where
  avgLength : ℤ
  avgHashtags : ℤ
  avgMentions : ℤ
deriving DecidableEq, Inhabited

/-- The arithmetic head of `buildMixedStyleGuidance(username1, p1, username2, p2)`:
the rounded means of the two profiles' metrics feeding the guidance text. -/
def buildMixedStyleTargets (metrics1 metrics2 : Metrics) : BlendTargets :=
  { avgLength := jsRound ((metrics1.avg_length + metrics2.avg_length) / 2)
    avgHashtags := max 1 (jsRound ((metrics1.hashtag_usage + metrics2.hashtag_usage) / 2))
    avgMentions := jsRound ((metrics1.mention_usage + metrics2.mention_usage) / 2) }

/-- Spec-side: total occurrences of `ch` over all (normalized) post texts of
the corpus; empty texts contribute nothing, so this equals the code's count
over the truthy-filtered texts. -/
def corpusCount (ch : Char) (tweets : List (Option RawPost)) : Nat :=
  ((tweets.map normalizeTweetData).map (fun t => countChar ch t.text)).sum

/-- Spec-side tone table (as amended): exclamations strictly dominating give
"emphatic"/"assertive" on the 30% threshold; otherwise — ties included —
questions give "inquisitive" above the 30% threshold, else "neutral". -/
def toneSpec (excl quest postCount : Nat) : String :=
  if quest < excl then
    if (postCount : ℚ) * 0.3 < (excl : ℚ) then "emphatic" else "assertive"
  else if (postCount : ℚ) * 0.3 < (quest : ℚ) then "inquisitive" else "neutral"

/-- Projection of the tone label out of an analysis result. -/
def resultTone : AnalysisResult → Option String
  | AnalysisResult.err _ => none
  | AnalysisResult.ok p => some p.style_assessment.tone

/-- Projection of the `analyzed_at` timestamp out of an analysis result. -/
def resultAnalyzedAt : AnalysisResult → Option String
  | AnalysisResult.err _ => none
  | AnalysisResult.ok p => some p.analyzed_at

/-- A concrete raw post whose text is "!?": one exclamation mark and one
question mark, so neither count strictly dominates. -/
def bangRaw : RawPost :=
  { (default : RawPost) with text := some "!?" }

/-- Erase the wall-clock component of an analysis result, for stating what
is and is not input-determined. -/
def stripTime : AnalysisResult → AnalysisResult
  | AnalysisResult.err m => AnalysisResult.err m
  | AnalysisResult.ok p =>
    AnalysisResult.ok
      { metrics := p.metrics
        style_assessment := p.style_assessment
        style_signature := p.style_signature
        example_tweets := p.example_tweets
        analyzed_at := "" }

/-- A page source that always answers success with one ordinary post and a
non-empty cursor: the infinite-pages mock of the pagination claim. -/
def endlessSrc : Nat → String → ApiResponse :=
  fun _ _ =>
    { status := "success", data := none,
      tweets := some [default], next_cursor := some "next" }

/-- A page source answering one ordinary post and no continuation cursor. -/
def oneGoodPost : RawPost :=
  { (default : RawPost) with text := some "hello world" }

/-- Single-page source returning `oneGoodPost`. -/
def oneShotSrc : Nat → String → ApiResponse :=
  fun _ _ =>
    { status := "success", data := none,
      tweets := some [oneGoodPost], next_cursor := none }

/-- The all-defaults normalized record with every one of the twelve fields
present (what the spec asserts `normalize(null)` returns). -/
def allFieldsDefault : NormalizedPost :=
  { id := "", text := "", like_count := 0, retweet_count := 0,
    reply_count := 0, quote_count := 0,
    created_at := some "", is_reply := some false, hashtags := some [],
    mentions := some [], urls := some [], language := some "" }

/-- A structurally valid cache record created at epoch. -/
def validRecord : CacheRecord :=
  { created_at := 0, profile_data := some { tweets := some [] }, tweets := none }

/-- Metrics of a profile with average length 100 and no hashtag usage. -/
def profileMetricsA : Metrics :=
  { tweet_count := 0, avg_length := 100, hashtag_usage := 0, mention_usage := 0,
    exclamation_frequency := 0, question_frequency := 0 }

/-- Metrics of a profile with average length 140 and no hashtag usage. -/
def profileMetricsB : Metrics :=
  { profileMetricsA with avg_length := 140 }

/-- A cache record whose payload fails the structural check. -/
def invalidRecord : CacheRecord :=
  { created_at := 0, profile_data := none, tweets := none }

/-! ## Helper lemmas -/

/-- The pagination loop issues at most `remaining` further requests. -/
theorem fetchLoop_requests_le (src : Nat → String → ApiResponse) (targetCount : Nat) :
    ∀ (remaining : Nat) (cursor : String) (acc : List RawPost) (reqCount : Nat),
      (fetchLoop src targetCount remaining cursor acc reqCount).2 ≤ reqCount + remaining := by
  intro remaining
  induction remaining with
  | zero => intro cursor acc reqCount; simp [fetchLoop]
  | succ r ih =>
    intro cursor acc reqCount
    simp only [fetchLoop]
    repeat' split
    all_goals first
      | exact le_trans (ih _ _ _) (by omega)
      | exact Nat.le_add_right _ _
      | exact (show reqCount + 1 ≤ reqCount + (r + 1) by omega)

/-- Every post accumulated by the pagination loop passes the repost filter,
provided the initial accumulator does. -/
theorem fetchLoop_no_reposts (src : Nat → String → ApiResponse) (targetCount : Nat) :
    ∀ (remaining : Nat) (cursor : String) (acc : List RawPost) (reqCount : Nat),
      (∀ t ∈ acc, isRepost t = false) →
      ∀ t ∈ (fetchLoop src targetCount remaining cursor acc reqCount).1,
        isRepost t = false := by
  intro remaining
  induction remaining with
  | zero => intro cursor acc reqCount hacc; exact hacc
  | succ r ih =>
    intro cursor acc reqCount hacc t ht
    simp only [fetchLoop] at ht
    split at ht
    · exact hacc t ht
    · split at ht
      · exact hacc t ht
      · split at ht
        · exact hacc t ht
        · split at ht
          · rcases List.mem_append.mp ht with h | h
            · exact hacc t h
            · simpa using (List.mem_filter.mp h).2
          · split at ht
            · rcases List.mem_append.mp ht with h | h
              · exact hacc t h
              · simpa using (List.mem_filter.mp h).2
            · refine ih _ _ _ ?_ t ht
              intro u hu
              rcases List.mem_append.mp hu with h | h
              · exact hacc u h
              · simpa using (List.mem_filter.mp h).2

/-- Counting a character in the empty string gives zero. -/
theorem countChar_empty (ch : Char) : countChar ch "" = 0 := rfl

/-- Dropping the falsy (empty) texts does not change a per-character total:
empty texts contribute zero. -/
theorem sum_countChar_filter (ch : Char) (l : List NormalizedPost) :
    ((l.filter (fun t => t.text != "")).map (fun t => countChar ch t.text)).sum
      = (l.map (fun t => countChar ch t.text)).sum := by
  induction l with
  | nil => rfl
  | cons a l ih =>
    by_cases h : a.text = ""
    · simp [List.filter_cons, h, ih, countChar_empty]
    · simp [List.filter_cons, h, ih]

/-- The analyzer's per-corpus character totals (computed over the
truthy-filtered texts) agree with the spec-side totals over all posts. -/
theorem sum_countChar_corpus (ch : Char) (tweets : List (Option RawPost)) :
    ((corpusTexts tweets).map (countChar ch)).sum = corpusCount ch tweets := by
  unfold corpusTexts corpusCount normalizedOf
  rw [List.map_map]
  exact sum_countChar_filter ch (tweets.map normalizeTweetData)

/-- `analyzeWritingStyle` of the empty corpus: all three ratio fields are
`NaN` because both numerator and divisor are zero. -/
theorem analyzeWritingStyle_nil :
    analyzeWritingStyle [] =
      { avg_sentence_length := JSNum.nan, emoji_usage := JSNum.nan,
        punctuation_patterns :=
          { exclamation := 0, question := 0, ellipsis := 0, all_caps := 0 },
        capitalization_style := "normal", word_richness := JSNum.nan } := by
  simp only [analyzeWritingStyle]
  norm_num [runsNot, runsNotAux, countEllipsis, capsTokenCount, jsDivNat, jsFixed,
    String.intercalate]

/-! ## Claim theorems -/

/-- C1 (amended): normalization is total and never errors; for every
non-null raw post all twelve fields of the result are present, and a raw
post with no recognized fields yields the all-defaults record; but for a
null/undefined input the returned record carries only the six id/text/count
fields with their defaults — the remaining six keys are absent, not
defaulted. -/
theorem normalize_total_amended :
    (∀ t : RawPost,
      ((normalizeTweetData (some t)).created_at).isSome = true
      ∧ ((normalizeTweetData (some t)).is_reply).isSome = true
      ∧ ((normalizeTweetData (some t)).hashtags).isSome = true
      ∧ ((normalizeTweetData (some t)).mentions).isSome = true
      ∧ ((normalizeTweetData (some t)).urls).isSome = true
      ∧ ((normalizeTweetData (some t)).language).isSome = true)
    ∧ normalizeTweetData (some default) = allFieldsDefault
    ∧ normalizeTweetData none =
        { id := "", text := "", like_count := 0, retweet_count := 0,
          reply_count := 0, quote_count := 0,
          created_at := none, is_reply := none, hashtags := none,
          mentions := none, urls := none, language := none } := by
  refine ⟨fun t => ?_, by decide, rfl⟩
  cases h : t.likeCount <;> simp [normalizeTweetData, h]

/-- C1 counterexample: the claim asserts that `normalize(null)` yields a
record in which all twelve fields are present with their defaults; in fact
the null branch returns only six fields, and the other six (created_at,
is_reply, hashtags, mentions, urls, language) are absent. -/
theorem normalize_null_missing_fields :
    ((normalizeTweetData none).created_at).isSome = false
    ∧ ((normalizeTweetData none).is_reply).isSome = false
    ∧ ((normalizeTweetData none).hashtags).isSome = false
    ∧ ((normalizeTweetData none).mentions).isSome = false
    ∧ ((normalizeTweetData none).urls).isSome = false
    ∧ ((normalizeTweetData none).language).isSome = false := by decide

/-- C2: for every upstream page source `getUserTweets` returns at most
`targetCount` records (overshoot from the last page is truncated), issues at
most `MAX_REQUESTS = 5` requests, and against a source that always answers
success with a record and a non-empty cursor it issues exactly 5 requests.
Termination holds for every source by construction: the loop counter
`requestCount < MAX_REQUESTS` strictly decreases the allowed remainder. -/
theorem pagination_bounds :
    (∀ (src : Nat → String → ApiResponse) (targetCount : Nat),
      (getUserTweets src targetCount).length ≤ targetCount)
    ∧ (∀ (src : Nat → String → ApiResponse) (targetCount : Nat),
      getUserTweetsRequestCount src targetCount ≤ MAX_REQUESTS)
    ∧ getUserTweetsRequestCount endlessSrc 100 = 5 := by
  refine ⟨fun src n => ?_, fun src n => ?_, by decide⟩
  · simp only [getUserTweets, List.length_take]
    exact min_le_left _ _
  · simpa [getUserTweetsRequestCount] using
      fetchLoop_requests_le src n MAX_REQUESTS "" [] 0

/-- C3: no record returned by `getUserTweets` is a repost — none has a text
beginning with "RT @" and none has `isRetweet` or `retweeted` set to
`true`; the per-page filter removes them all. -/
theorem no_reposts_returned :
    ∀ (src : Nat → String → ApiResponse) (targetCount : Nat) (t : RawPost),
      t ∈ getUserTweets src targetCount →
      (∀ s, t.text = some s → jsStartsWith s "RT @" = false)
      ∧ t.isRetweet ≠ some true ∧ t.retweeted ≠ some true := by
  intro src n t ht
  have hmem : t ∈ (fetchLoop src n MAX_REQUESTS "" [] 0).1 :=
    List.take_subset _ _ ht
  have h0 : isRepost t = false :=
    fetchLoop_no_reposts src n MAX_REQUESTS "" [] 0 (by simp) t hmem
  unfold isRepost at h0
  simp only [Bool.or_eq_false_iff] at h0
  obtain ⟨⟨h1, h2⟩, h3⟩ := h0
  refine ⟨?_, ?_, ?_⟩
  · intro s hs
    rw [hs] at h1
    simpa using h1
  · simpa using h2
  · simpa using h3

/-- C3 witness: a concrete non-repost post returned by a one-page source
satisfies the conclusion. -/
theorem no_reposts_returned_witness :
    oneGoodPost ∈ getUserTweets oneShotSrc 10
    ∧ ((∀ s, oneGoodPost.text = some s → jsStartsWith s "RT @" = false)
       ∧ oneGoodPost.isRetweet ≠ some true ∧ oneGoodPost.retweeted ≠ some true) :=
  ⟨by decide, no_reposts_returned oneShotSrc 10 oneGoodPost (by decide)⟩

/-- C4: a cache entry is classified fresh exactly when `now - created_at` is
at most the 24-hour TTL, in both tiers: the in-process tier serves the entry
as fresh iff its age is within the TTL (otherwise it falls through — here to
a miss), and the durable tier classifies a structurally valid entry fresh
iff its age is within the TTL and stale otherwise. An entry aged 23h59m
(86340000 ms) is fresh in both tiers, one aged 24h01m (86460000 ms) is not
fresh in the in-process tier and is stale in the durable tier. -/
theorem cache_freshness_ttl :
    (∀ (r : CacheRecord) (now : ℚ),
      getCachedProfile { memory := some r, dbLatest := none, useDatabase := false } now
        = if ageHours now r.created_at ≤ CACHE_EXPIRY_HOURS then
            some (CacheStatus.fresh, r) else none)
    ∧ (∀ (r : CacheRecord) (now : ℚ), invalidPayload r = false →
      getCachedProfile { memory := none, dbLatest := some r, useDatabase := true } now
        = if ageHours now r.created_at ≤ CACHE_EXPIRY_HOURS then
            some (CacheStatus.fresh, r) else some (CacheStatus.stale, r))
    ∧ getCachedProfile { memory := some validRecord, dbLatest := none, useDatabase := false }
        86340000 = some (CacheStatus.fresh, validRecord)
    ∧ getCachedProfile { memory := none, dbLatest := some validRecord, useDatabase := true }
        86340000 = some (CacheStatus.fresh, validRecord)
    ∧ getCachedProfile { memory := some validRecord, dbLatest := none, useDatabase := false }
        86460000 = none
    ∧ getCachedProfile { memory := none, dbLatest := some validRecord, useDatabase := true }
        86460000 = some (CacheStatus.stale, validRecord) := by
  refine ⟨fun r now => ?_, fun r now h => ?_, ?_, ?_, ?_, ?_⟩
  · by_cases hf : ageHours now r.created_at ≤ CACHE_EXPIRY_HOURS <;>
      simp [getCachedProfile, dbLookup, hf]
  · by_cases hf : ageHours now r.created_at ≤ CACHE_EXPIRY_HOURS
    · simp [getCachedProfile, dbLookup, h, hf, not_lt.mpr hf]
    · simp [getCachedProfile, dbLookup, h, hf, not_le.mp hf]
  · simp only [getCachedProfile, dbLookup, validRecord]
    norm_num [ageHours, CACHE_EXPIRY_HOURS]
  · simp only [getCachedProfile, dbLookup, validRecord, invalidPayload]
    norm_num [ageHours, CACHE_EXPIRY_HOURS]
  · simp only [getCachedProfile, dbLookup, validRecord]
    norm_num [ageHours, CACHE_EXPIRY_HOURS]
  · simp only [getCachedProfile, dbLookup, validRecord, invalidPayload]
    norm_num [ageHours, CACHE_EXPIRY_HOURS]

/-- C4 witness: the durable-tier law applied to the concrete valid record at
age 24h01m. -/
theorem cache_freshness_ttl_witness :
    invalidPayload validRecord = false
    ∧ getCachedProfile { memory := none, dbLatest := some validRecord, useDatabase := true }
        86460000
      = if ageHours 86460000 validRecord.created_at ≤ CACHE_EXPIRY_HOURS then
          some (CacheStatus.fresh, validRecord) else some (CacheStatus.stale, validRecord) :=
  ⟨by decide, cache_freshness_ttl.2.1 validRecord 86460000 (by decide)⟩

/-- C5: `analyzeTweets` fails only on the empty input list, and there it
returns the error-shaped result (an object with an error message) rather
than throwing or a partial profile; every non-empty list yields a full
`StyleProfile`. -/
theorem analyzer_empty_input_error :
    (∀ now : String,
      analyzeTweets [] now = AnalysisResult.err "No tweets available for analysis")
    ∧ (∀ (tweets : List (Option RawPost)) (now : String), tweets ≠ [] →
        ∃ p, analyzeTweets tweets now = AnalysisResult.ok p) := by
  constructor
  · intro now; rfl
  · intro tweets now h
    cases tweets with
    | nil => exact absurd rfl h
    | cons a l => exact ⟨_, rfl⟩

/-- C5 witness: the non-empty branch at a concrete one-element list. -/
theorem analyzer_empty_input_error_witness :
    (([none] : List (Option RawPost)) ≠ [])
    ∧ ∃ p, analyzeTweets [none] "2024-01-01T00:00:00.000Z" = AnalysisResult.ok p :=
  ⟨by decide,
    analyzer_empty_input_error.2 [none] "2024-01-01T00:00:00.000Z" (by decide)⟩

/-- C6 (amended): `analyzeTweets` is deterministic given the input list and
the invocation timestamp; every output component except `analyzed_at`
depends only on the input list, so two runs on an identical list agree on
metrics, style_assessment, style_signature and example_tweets regardless of
when they run. -/
theorem analyzer_deterministic_modulo_time :
    ∀ (tweets : List (Option RawPost)) (t1 t2 : String),
      stripTime (analyzeTweets tweets t1) = stripTime (analyzeTweets tweets t2) := by
  intro tweets t1 t2
  cases tweets <;> rfl

/-- C6 counterexample: the claim demands identical outputs including the
`analyzed_at` field, but `analyzed_at` is the wall-clock timestamp
(`new Date().toISOString()`), so two runs of `analyzeTweets` on the identical
input list at different instants produce different outputs. -/
theorem analyzer_time_dependence :
    analyzeTweets [none] "2024-01-01T00:00:00.000Z"
      ≠ analyzeTweets [none] "2024-01-02T00:00:00.000Z" := by
  intro h
  have h2 := congrArg resultAnalyzedAt h
  simp [analyzeTweets, resultAnalyzedAt] at h2

/-- C7: blend rendering computes `avgLength` as the rounded mean of the two
profiles' `avg_length` values, `avgHashtags` as `max 1` of the rounded mean
of the `hashtag_usage` values, and `avgMentions` as the rounded mean of the
`mention_usage` values; for avg_length 100 and 140 the blended target length
is 120, and for hashtag_usage 0 and 0 the blended `avgHashtags` is 1. -/
theorem blend_arithmetic :
    (∀ metrics1 metrics2 : Metrics,
      (buildMixedStyleTargets metrics1 metrics2).avgLength
          = jsRound ((metrics1.avg_length + metrics2.avg_length) / 2)
      ∧ (buildMixedStyleTargets metrics1 metrics2).avgHashtags
          = max 1 (jsRound ((metrics1.hashtag_usage + metrics2.hashtag_usage) / 2))
      ∧ (buildMixedStyleTargets metrics1 metrics2).avgMentions
          = jsRound ((metrics1.mention_usage + metrics2.mention_usage) / 2))
    ∧ (buildMixedStyleTargets profileMetricsA profileMetricsB).avgLength = 120
    ∧ (buildMixedStyleTargets profileMetricsA profileMetricsB).avgHashtags = 1 := by
  refine ⟨fun m1 m2 => ⟨rfl, rfl, rfl⟩, ?_, ?_⟩
  · norm_num [buildMixedStyleTargets, profileMetricsA, profileMetricsB, jsRound]
  · norm_num [buildMixedStyleTargets, profileMetricsA, profileMetricsB, jsRound]

/-- C8 (amended): the tone is assigned by comparing the corpus totals of "!"
and "?": when exclamations strictly dominate, "emphatic" above the 30%-of-
post-count threshold and "assertive" otherwise; in all other cases — ties
included — "inquisitive" when the question total exceeds the threshold and
"neutral" otherwise. -/
theorem tone_classification_amended :
    ∀ (tweets : List (Option RawPost)) (now : String), tweets ≠ [] →
      resultTone (analyzeTweets tweets now)
        = some (toneSpec (corpusCount '!' tweets) (corpusCount '?' tweets)
            tweets.length) := by
  intro tweets now h
  cases tweets with
  | nil => exact absurd rfl h
  | cons a l =>
    have hex : exclamationCountOf (a :: l) = corpusCount '!' (a :: l) :=
      sum_countChar_corpus '!' (a :: l)
    have hq : questionCountOf (a :: l) = corpusCount '?' (a :: l) :=
      sum_countChar_corpus '?' (a :: l)
    have hlen : (normalizedOf (a :: l)).length = (a :: l).length := by
      simp [normalizedOf]
    simp only [analyzeTweets, List.isEmpty_cons, Bool.false_eq_true, if_false,
      resultTone, styleAssessmentOf, toneSpec, hex, hq, hlen]

/-- C8 witness: the amended tone law at the one-post corpus "!?". -/
theorem tone_classification_amended_witness :
    (([some bangRaw] : List (Option RawPost)) ≠ [])
    ∧ resultTone (analyzeTweets [some bangRaw] "2024-01-01T00:00:00.000Z")
        = some (toneSpec (corpusCount '!' [some bangRaw])
            (corpusCount '?' [some bangRaw]) 1) :=
  ⟨by decide,
    tone_classification_amended [some bangRaw] "2024-01-01T00:00:00.000Z" (by decide)⟩

/-- C8 counterexample: on the single post "!?" the "!": and "?" totals tie
(1 each), so by the claim neither dominates and the tone must be "neutral";
the code classifies it "inquisitive" because the tie falls into the question
branch and 1 exceeds 30% of the post count. -/
theorem tone_tie_not_neutral :
    countChar '!' (normalizeTweetData (some bangRaw)).text
        = countChar '?' (normalizeTweetData (some bangRaw)).text
    ∧ resultTone (analyzeTweets [some bangRaw] "2024-01-01T00:00:00.000Z")
        = some "inquisitive" := by
  constructor
  · decide
  · have h1 : exclamationCountOf [some bangRaw] = 1 := by decide
    have h2 : questionCountOf [some bangRaw] = 1 := by decide
    have h3 : (normalizedOf [some bangRaw]).length = 1 := by decide
    simp only [analyzeTweets, List.isEmpty_cons, Bool.false_eq_true, if_false,
      resultTone, styleAssessmentOf, h1, h2, h3]
    norm_num

/-- C9: a durable-store record whose payload fails the structural check
(`profile_data` missing, or its `tweets` sub-field missing) is reported
`invalid` rather than fresh by `getCachedProfile`, and both callers treat it
as a cache miss: the `analyze_twitter_profile` tool and the `generate_tweet`
tool both re-fetch from the upstream source. -/
theorem invalid_durable_entry_misses :
    ∀ (r : CacheRecord) (now : ℚ), invalidPayload r = true →
      getCachedProfile { memory := none, dbLatest := some r, useDatabase := true } now
          = some (CacheStatus.invalid, r)
      ∧ analyzeProfileFetches false
          (getCachedProfile { memory := none, dbLatest := some r, useDatabase := true } now)
          = true
      ∧ generateTweetFetches
          (getCachedProfile { memory := none, dbLatest := some r, useDatabase := true } now)
          = true := by
  intro r now h
  have hg : getCachedProfile { memory := none, dbLatest := some r, useDatabase := true } now
      = some (CacheStatus.invalid, r) := by
    simp [getCachedProfile, dbLookup, h]
  refine ⟨hg, ?_, ?_⟩
  · rw [hg]; rfl
  · rw [hg]; rfl

/-- C9 witness: the concrete invalid record. -/
theorem invalid_durable_entry_misses_witness :
    invalidPayload invalidRecord = true
    ∧ (getCachedProfile
          { memory := none, dbLatest := some invalidRecord, useDatabase := true } 0
        = some (CacheStatus.invalid, invalidRecord)
      ∧ analyzeProfileFetches false
          (getCachedProfile
            { memory := none, dbLatest := some invalidRecord, useDatabase := true } 0)
          = true
      ∧ generateTweetFetches
          (getCachedProfile
            { memory := none, dbLatest := some invalidRecord, useDatabase := true } 0)
          = true) :=
  ⟨by decide, invalid_durable_entry_misses invalidRecord 0 (by decide)⟩

/-- C10: on any non-empty list whose posts all normalize to the empty text,
`analyzeTweets` still returns a non-error profile with `avg_length = 0` and
`tweet_count` the list length, but the writing-style divisions are
unguarded: sentence and word counts over the joined corpus are zero, so
`avg_sentence_length`, `emoji_usage` and `word_richness` are NaN (zero
divided by zero) rather than a defined default. The error branch is reached
only for the empty list itself (see the C5 theorem). -/
theorem empty_texts_nan :
    ∀ (tweets : List (Option RawPost)) (now : String),
      tweets ≠ [] → (∀ t ∈ tweets, (normalizeTweetData t).text = "") →
      ∃ p, analyzeTweets tweets now = AnalysisResult.ok p
        ∧ p.metrics.avg_length = 0
        ∧ p.metrics.tweet_count = tweets.length
        ∧ p.style_signature.writing_style.avg_sentence_length = JSNum.nan
        ∧ p.style_signature.writing_style.emoji_usage = JSNum.nan
        ∧ p.style_signature.writing_style.word_richness = JSNum.nan := by
  intro tweets now hne hall
  cases tweets with
  | nil => exact absurd rfl hne
  | cons a l =>
    have hfil : ((a :: l).map normalizeTweetData).filter (fun t => t.text != "") = [] := by
      rw [List.filter_eq_nil_iff]
      intro x hx
      obtain ⟨t, ht, rfl⟩ := List.mem_map.mp hx
      simp [hall t ht]
    have hcorpus : corpusTexts (a :: l) = [] := by
      unfold corpusTexts normalizedOf
      rw [hfil]
      rfl
    refine ⟨_, rfl, ?_, ?_, ?_, ?_, ?_⟩
    · show (metricsOf (a :: l)).avg_length = 0
      simp only [metricsOf, avgLengthOf, hcorpus, List.length_nil]
      norm_num [toFixed, jsRound]
    · show (metricsOf (a :: l)).tweet_count = (a :: l).length
      simp [metricsOf, normalizedOf]
    · show (styleSignatureOf (a :: l)).writing_style.avg_sentence_length = JSNum.nan
      simp only [styleSignatureOf, hcorpus, analyzeWritingStyle_nil]
    · show (styleSignatureOf (a :: l)).writing_style.emoji_usage = JSNum.nan
      simp only [styleSignatureOf, hcorpus, analyzeWritingStyle_nil]
    · show (styleSignatureOf (a :: l)).writing_style.word_richness = JSNum.nan
      simp only [styleSignatureOf, hcorpus, analyzeWritingStyle_nil]

/-- C10 witness: the single-null-post list normalizes to one empty text. -/
theorem empty_texts_nan_witness :
    ((([none] : List (Option RawPost)) ≠ [])
      ∧ ∀ t ∈ ([none] : List (Option RawPost)), (normalizeTweetData t).text = "")
    ∧ ∃ p, analyzeTweets [none] "2024-01-01T00:00:00.000Z" = AnalysisResult.ok p
        ∧ p.metrics.avg_length = 0
        ∧ p.metrics.tweet_count = ([none] : List (Option RawPost)).length
        ∧ p.style_signature.writing_style.avg_sentence_length = JSNum.nan
        ∧ p.style_signature.writing_style.emoji_usage = JSNum.nan
        ∧ p.style_signature.writing_style.word_richness = JSNum.nan :=
  ⟨⟨by decide, by decide⟩,
    empty_texts_nan [none] "2024-01-01T00:00:00.000Z" (by decide) (by decide)⟩
